import Mathlib

/-!
Verification of the ammonite single-upstream HTTP reverse proxy.

The repository has two near-duplicate variants of the proxy:
  * `src/src/main.rs` — the minimal variant: passthrough authority policy,
    no counters (only an unlabeled latency histogram);
  * `src/ammonite-backend/src/main.rs` — the richer variant: port-substitution
    authority policy, `responses` / `error_responses` / `redirect_responses`
    counters and a labeled histogram.

We embed both variants shallowly.  HTTP statuses are natural numbers in the
range accepted by the `http` crate's `StatusCode::from_u16` (100..=999);
the status-class predicates mirror `StatusCode::is_client_error`,
`is_server_error` and `is_redirection`.  The hyper client held in
`ProxyState.client` is modeled as a function from requests to
`Except String Response` (a transport error carries its message).
Panics (`Option::unwrap` / `Result::unwrap` in the handler) are modeled as
`none` results: no response is produced and nothing after the panic runs.
-/

/-- A socket address: IP plus port (model of `std::net::SocketAddr`). -/
structure SocketAddr where
  ip : String
  port : Nat
deriving DecidableEq, Repr

/-- Model of `hyper::Uri`: optional scheme, authority and path-and-query
components, each kept as the raw string. -/
structure Uri where
  scheme : Option String
  authority : Option String
  pathAndQuery : Option String
deriving DecidableEq, Repr

/-- Rendering of a `Uri`, as `Uri::to_string()` produces it for the parts
that are present (scheme://authority followed by path-and-query). -/
def Uri.render (u : Uri) : String :=
  (match u.scheme with
   | some s => s ++ "://"
   | none => "") ++
  (match u.authority with
   | some a => a
   | none => "") ++
  (match u.pathAndQuery with
   | some pq => pq
   | none => "")

/-- An HTTP request (model of `Request<Body>`): method, target URI, header
list and body bytes (kept as a string). -/
structure Request where
  method : String
  uri : Uri
  headers : List (String × String)
  body : String
deriving DecidableEq, Repr

/-- An HTTP response (model of `Response<Body>`). -/
structure Response where
  status : Nat
  headers : List (String × String)
  body : String
deriving DecidableEq, Repr

/-- Valid HTTP status codes, the range `http::StatusCode::from_u16`
accepts (100..=999). -/
def StatusCode.isValid (s : Nat) : Prop := 100 ≤ s ∧ s ≤ 999

/-- Model of `http::StatusCode::is_client_error`: 400..=499. -/
def isClientError (s : Nat) : Bool := decide (400 ≤ s ∧ s < 500)

/-- Model of `http::StatusCode::is_server_error`: 500..=599. -/
def isServerError (s : Nat) : Bool := decide (500 ≤ s ∧ s < 600)

/-- Model of `http::StatusCode::is_redirection`: 300..=399. -/
def isRedirection (s : Nat) : Bool := decide (300 ≤ s ∧ s < 400)

/-- Characters the `http` crate accepts inside a URI authority:
alphanumerics plus the RFC 3986 sub-delims, unreserved punctuation,
percent, colon, at-sign and brackets. -/
def isAuthorityChar (c : Char) : Bool :=
  c.isAlphanum || c ∈ ([Char.ofNat 45, Char.ofNat 46, Char.ofNat 95, Char.ofNat 126,
    Char.ofNat 37, Char.ofNat 33, Char.ofNat 36, Char.ofNat 38, Char.ofNat 39,
    Char.ofNat 40, Char.ofNat 41, Char.ofNat 42, Char.ofNat 43, Char.ofNat 44,
    Char.ofNat 59, Char.ofNat 61, Char.ofNat 58, Char.ofNat 64, Char.ofNat 91,
    Char.ofNat 93])

/-- Validation `Uri::builder().authority(..).build()` performs on the
authority string: nonempty and made of authority characters.  An invalid
authority makes `build()` return an error, which the handler unwraps
(panics). -/
def isValidAuthority (s : String) : Bool :=
  !(s.data.isEmpty) && s.data.all isAuthorityChar

/-- Model of the shared `ProxyState` (`state.rs`): the hyper client handle
(modeled as a request-to-result function) and the fixed upstream address. -/
structure ProxyState where
  client : Request → Except String Response
  remote : SocketAddr

/-- Model of the custom resolver (`Resolver` in both `main.rs` files).
Its `Service::call` returns `ready(Ok::<_, Infallible>(once(self.remote)))`:
the error type is uninhabited (`Empty` models `Infallible`) and the
address iterator is the singleton of the fixed remote address. -/
structure Resolver where
  remote : SocketAddr

/-- `Service::<Name>::call` of the resolver: ignores the hostname and yields
exactly the configured remote address, infallibly. -/
def Resolver.call (r : Resolver) (_name : String) : Except Empty (List SocketAddr) :=
  Except.ok [r.remote]

/-- What the `fallback` handler produced: a response (`none` when the handler
panicked on an `unwrap`), the requests submitted to the upstream client, and
the `tracing::error!` lines emitted inside the handler. -/
structure FallbackOut where
  response : Option Response
  upstreamCalls : List Request
  errorLogs : List String
deriving DecidableEq, Repr

/-- Log levels used by the observability middleware. -/
inductive Level
  | info
  | warn
  | error
deriving DecidableEq, Repr

/-- One structured log line: level, message, and the optional status, uri,
method and error fields present on the corresponding `tracing` call (the
elapsed-time field is wall-clock and is not modeled). -/
structure LogLine where
  level : Level
  message : String
  status : Option Nat
  uri : Option String
  method : Option String
  err : Option String
deriving DecidableEq, Repr

/-- A metrics emission: a counter increment of 1 with its (status, method)
labels, or a histogram observation whose labels are present in the richer
variant and absent in the minimal one. -/
inductive MetricEvent
  | counter (name : String) (status : Nat) (method : String)
  | histogram (name : String) (labels : Option (Nat × String))
deriving DecidableEq, Repr

/-- Total number of increments of the counter called `name` in a list of
metric events (each `counter!` call increments by 1). -/
def counterTotal (name : String) (events : List MetricEvent) : Nat :=
  events.countP (fun e =>
    match e with
    | MetricEvent.counter n _ _ => n == name
    | _ => false)

/-- Number of increments of the counter called `name` carrying exactly the
labels (status, method). -/
def counterTotalAt (name : String) (status : Nat) (method : String)
    (events : List MetricEvent) : Nat :=
  events.countP (fun e => e == MetricEvent.counter name status method)

/-- Total number of counter increments across all counter names and labels. -/
def allCounterTotal (events : List MetricEvent) : Nat :=
  events.countP (fun e =>
    match e with
    | MetricEvent.counter _ _ _ => true
    | _ => false)

/-- Total number of histogram observations. -/
def histogramTotal (events : List MetricEvent) : Nat :=
  events.countP (fun e =>
    match e with
    | MetricEvent.histogram _ _ => true
    | _ => false)

namespace Backend

/-- Embedding of `fallback` from `src/ammonite-backend/src/main.rs` lines
28-53.  The authority is rewritten to `format!("{hostname}:{}", remote.port())`
(port-substitution policy), the scheme to `http`, and the path-and-query is
copied from the inbound URI; `uri.path_and_query().unwrap()` panics when the
component is absent and `build().unwrap()` panics on an invalid authority
(both modeled as `response = none` with no upstream call).  On a client
error the handler logs the error and synthesizes an empty 500 response. -/
def fallback (hostname : String) (state : ProxyState) (request : Request) :
    FallbackOut :=
  match request.uri.pathAndQuery with
  | none => ⟨none, [], []⟩
  | some pq =>
    let authority := hostname ++ ":" ++ toString state.remote.port
    if isValidAuthority authority then
      let outbound : Request :=
        { request with uri := ⟨some "http", some authority, some pq⟩ }
      match state.client outbound with
      | Except.ok r => ⟨some r, [outbound], []⟩
      | Except.error e =>
        ⟨some ⟨500, [], ""⟩, [outbound],
          ["Internal error when talking to upstream: " ++ e]⟩
    else ⟨none, [], []⟩

/-- Embedding of `observe` from `src/ammonite-backend/src/main.rs` lines
55-118, applied to the response the inner handler returned: classifies the
status, emits counters and one labeled histogram observation, and writes
leveled log lines carrying the inbound URI, method and status. -/
def observe (request : Request) (response : Response) :
    List MetricEvent × List LogLine :=
  let uri := request.uri.render
  let method := request.method
  let status := response.status
  if isClientError status || isServerError status then
    ([MetricEvent.counter "error_responses" status method,
      MetricEvent.histogram "response_processing_time_seconds" (some (status, method))],
     [⟨Level.error, "Serving error", some status, some uri, some method, none⟩])
  else if isRedirection status then
    ([MetricEvent.counter "redirect_responses" status method,
      MetricEvent.counter "responses" status method,
      MetricEvent.histogram "response_processing_time_seconds" (some (status, method))],
     [⟨Level.warn, "Serving redirect", some status, some uri, some method, none⟩,
      ⟨Level.info, "Serving response", some status, some uri, some method, none⟩])
  else
    ([MetricEvent.counter "responses" status method,
      MetricEvent.histogram "response_processing_time_seconds" (some (status, method))],
     [⟨Level.info, "Serving response", some status, some uri, some method, none⟩])

/-- One full request through the richer variant: the observability middleware
wrapping the fallback handler.  A handler panic propagates (no response, no
middleware post-processing); otherwise the middleware's events are emitted
and the handler's own error log lines precede the middleware's. -/
def handle (hostname : String) (state : ProxyState) (request : Request) :
    Option (Response × List MetricEvent × List LogLine) :=
  let fb := fallback hostname state request
  match fb.response with
  | none => none
  | some resp =>
    let o := observe request resp
    some (resp, o.1,
      fb.errorLogs.map
        (fun e => ⟨Level.error, "Internal error when talking to upstream",
          none, none, none, some e⟩) ++ o.2)

/-- Metric events produced by the richer middleware over a sequence of
completed (inbound request, final response) pairs. -/
def runMetrics : List (Request × Response) → List MetricEvent
  | [] => []
  | p :: rest => (observe p.1 p.2).1 ++ runMetrics rest

end Backend

namespace Minimal

/-- Embedding of `fallback` from `src/src/main.rs` lines 28-53.  Identical
to the richer variant except for the authority policy: the Host value is
forwarded unchanged as the outbound authority (passthrough policy). -/
def fallback (hostname : String) (state : ProxyState) (request : Request) :
    FallbackOut :=
  match request.uri.pathAndQuery with
  | none => ⟨none, [], []⟩
  | some pq =>
    if isValidAuthority hostname then
      let outbound : Request :=
        { request with uri := ⟨some "http", some hostname, some pq⟩ }
      match state.client outbound with
      | Except.ok r => ⟨some r, [outbound], []⟩
      | Except.error e =>
        ⟨some ⟨500, [], ""⟩, [outbound],
          ["Internal error when talking to upstream: " ++ e]⟩
    else ⟨none, [], []⟩

/-- Embedding of `observe` from `src/src/main.rs` lines 55-86: one leveled
log line (error for 4xx/5xx, else info) and one unlabeled histogram
observation; no counters. -/
def observe (request : Request) (response : Response) :
    List MetricEvent × List LogLine :=
  let uri := request.uri.render
  let method := request.method
  let status := response.status
  if isClientError status || isServerError status then
    ([MetricEvent.histogram "response_processing_time_seconds" none],
     [⟨Level.error, "Serving error", some status, some uri, some method, none⟩])
  else
    ([MetricEvent.histogram "response_processing_time_seconds" none],
     [⟨Level.info, "Serving response", some status, some uri, some method, none⟩])

/-- One full request through the minimal variant: the observability
middleware wrapping the fallback handler.  A handler panic propagates (no
response, no middleware post-processing); otherwise the middleware's events
are emitted and the handler's own error log lines precede the middleware's. -/
def handle (hostname : String) (state : ProxyState) (request : Request) :
    Option (Response × List MetricEvent × List LogLine) :=
  let fb := fallback hostname state request
  match fb.response with
  | none => none
  | some resp =>
    let o := observe request resp
    some (resp, o.1,
      fb.errorLogs.map
        (fun e => ⟨Level.error, "Internal error when talking to upstream",
          none, none, none, some e⟩) ++ o.2)

end Minimal

/-!
Theorems settling the claims.
-/

/-- C3: invoked with any hostname input (the empty string, an IP-literal
string, or arbitrary text alike), the resolver override yields exactly the
one configured fixed upstream address and never fails: `call` is total,
single-valued, and ignores its input. -/
theorem resolver_returns_fixed_singleton (remote : SocketAddr) (name : String) :
    Resolver.call ⟨remote⟩ name = Except.ok [remote] ∧ [remote].length = 1 :=
  ⟨rfl, rfl⟩

/-- C4: under the port-substitution policy (richer variant), the outbound
request submitted upstream carries authority `hostname:port` with the fixed
upstream's port, scheme `http`, and the inbound path-and-query, method,
headers and body unchanged. -/
theorem backend_fallback_port_substitution
    (hostname : String) (state : ProxyState) (request : Request) (pq : String)
    (hpq : request.uri.pathAndQuery = some pq)
    (hauth : isValidAuthority (hostname ++ ":" ++ toString state.remote.port) = true) :
    (Backend.fallback hostname state request).upstreamCalls =
      [{ request with uri := ⟨some "http",
          some (hostname ++ ":" ++ toString state.remote.port), some pq⟩ }] := by
  unfold Backend.fallback
  rw [hpq]
  simp only [hauth, if_true]
  cases state.client _ <;> rfl

/-- Witness for C4: the concrete scenario with Host `tenant.example.com` and
remote port 9000 yields outbound authority `tenant.example.com:9000`. -/
theorem backend_fallback_port_substitution_witness :
    isValidAuthority ("tenant.example.com" ++ ":" ++ toString (9000 : Nat)) = true ∧
    (Backend.fallback "tenant.example.com"
        ⟨fun _ => Except.ok ⟨200, [], "ok"⟩, ⟨"127.0.0.1", 9000⟩⟩
        ⟨"GET", ⟨none, none, some "/health"⟩, [], ""⟩).upstreamCalls =
      [⟨"GET", ⟨some "http", some "tenant.example.com:9000", some "/health"⟩, [], ""⟩] :=
  ⟨by decide,
   backend_fallback_port_substitution "tenant.example.com"
     ⟨fun _ => Except.ok ⟨200, [], "ok"⟩, ⟨"127.0.0.1", 9000⟩⟩
     ⟨"GET", ⟨none, none, some "/health"⟩, [], ""⟩ "/health" rfl (by decide)⟩

/-- C5: under the passthrough policy (minimal variant), the outbound request
carries the Host value unchanged as its authority, scheme `http`, and the
inbound path-and-query unchanged; independently of that hostname, the
resolver override directs the connection to the fixed remote address. -/
theorem minimal_fallback_passthrough
    (hostname : String) (state : ProxyState) (request : Request) (pq : String)
    (hpq : request.uri.pathAndQuery = some pq)
    (hauth : isValidAuthority hostname = true) :
    (Minimal.fallback hostname state request).upstreamCalls =
      [{ request with uri := ⟨some "http", some hostname, some pq⟩ }] ∧
    ∀ h : String, Resolver.call ⟨state.remote⟩ h = Except.ok [state.remote] := by
  constructor
  · unfold Minimal.fallback
    rw [hpq]
    simp only [hauth, if_true]
    cases state.client _ <;> rfl
  · intro h
    rfl

/-- Witness for C5: inbound Host `tenant.example.com` is forwarded verbatim
as the outbound authority while the resolver still yields the fixed address. -/
theorem minimal_fallback_passthrough_witness :
    isValidAuthority "tenant.example.com" = true ∧
    (Minimal.fallback "tenant.example.com"
        ⟨fun _ => Except.ok ⟨200, [], "ok"⟩, ⟨"127.0.0.1", 9000⟩⟩
        ⟨"GET", ⟨none, none, some "/health"⟩, [], ""⟩).upstreamCalls =
      [⟨"GET", ⟨some "http", some "tenant.example.com", some "/health"⟩, [], ""⟩] ∧
    Resolver.call ⟨⟨"127.0.0.1", 9000⟩⟩ "tenant.example.com" =
      Except.ok [⟨"127.0.0.1", 9000⟩] := by
  refine ⟨by decide, ?_⟩
  have h := minimal_fallback_passthrough "tenant.example.com"
    ⟨fun _ => Except.ok ⟨200, [], "ok"⟩, ⟨"127.0.0.1", 9000⟩⟩
    ⟨"GET", ⟨none, none, some "/health"⟩, [], ""⟩ "/health" rfl (by decide)
  exact ⟨h.1, h.2 "tenant.example.com"⟩

/-- C6 counterexample: on a concrete inbound request with no retrievable
path-and-query component (an authority-form CONNECT target), both variants'
handlers panic on `uri.path_and_query().unwrap()` and return no response at
all — the claim that the handler "still returns a well-formed HTTP response
(an internal error) to the client" is false. -/
theorem fallback_missing_path_cex :
    (Backend.fallback "tenant.example.com"
        ⟨fun _ => Except.ok ⟨200, [], "ok"⟩, ⟨"127.0.0.1", 9000⟩⟩
        ⟨"CONNECT", ⟨none, some "tenant.example.com:443", none⟩, [], ""⟩).response
      = none ∧
    (Minimal.fallback "tenant.example.com"
        ⟨fun _ => Except.ok ⟨200, [], "ok"⟩, ⟨"127.0.0.1", 9000⟩⟩
        ⟨"CONNECT", ⟨none, some "tenant.example.com:443", none⟩, [], ""⟩).response
      = none :=
  ⟨rfl, rfl⟩

/-- C6 amended: for every inbound request lacking a retrievable
path-and-query component, both variants' handlers make zero upstream call
attempts, never silently substitute a default path, and fail hard (the
`unwrap` panics), producing no response at all — in particular no
well-formed internal-error response reaches the client. -/
theorem fallback_missing_path_zero_calls_no_response
    (hostname : String) (state : ProxyState) (request : Request)
    (hpq : request.uri.pathAndQuery = none) :
    Backend.fallback hostname state request = ⟨none, [], []⟩ ∧
    Minimal.fallback hostname state request = ⟨none, [], []⟩ := by
  unfold Backend.fallback Minimal.fallback
  rw [hpq]
  exact ⟨rfl, rfl⟩

/-- Witness for the amended C6 at a concrete CONNECT-style request. -/
theorem fallback_missing_path_zero_calls_no_response_witness :
    Backend.fallback "h.example"
        ⟨fun _ => Except.ok ⟨200, [], "ok"⟩, ⟨"10.0.0.1", 9000⟩⟩
        ⟨"CONNECT", ⟨none, some "h.example:443", none⟩, [], ""⟩ = ⟨none, [], []⟩ ∧
    Minimal.fallback "h.example"
        ⟨fun _ => Except.ok ⟨200, [], "ok"⟩, ⟨"10.0.0.1", 9000⟩⟩
        ⟨"CONNECT", ⟨none, some "h.example:443", none⟩, [], ""⟩ = ⟨none, [], []⟩ :=
  fallback_missing_path_zero_calls_no_response "h.example"
    ⟨fun _ => Except.ok ⟨200, [], "ok"⟩, ⟨"10.0.0.1", 9000⟩⟩
    ⟨"CONNECT", ⟨none, some "h.example:443", none⟩, [], ""⟩ rfl

/-- C2: in both variants, when the forwarding attempt fails with a transport
error, the handler returns a synthesized response with status 500, empty
body and no headers, surfaces the underlying error in exactly one handler
error-log line, and makes exactly one upstream attempt (no retry). -/
theorem fallback_upstream_error_synthesizes_500
    (hostnameB hostnameM : String) (state : ProxyState) (request : Request)
    (pq : String) (e : String)
    (hpq : request.uri.pathAndQuery = some pq)
    (hB : isValidAuthority (hostnameB ++ ":" ++ toString state.remote.port) = true)
    (hM : isValidAuthority hostnameM = true)
    (hclient : ∀ q, state.client q = Except.error e) :
    ((Backend.fallback hostnameB state request).response = some ⟨500, [], ""⟩ ∧
     (Backend.fallback hostnameB state request).upstreamCalls.length = 1 ∧
     (Backend.fallback hostnameB state request).errorLogs =
       ["Internal error when talking to upstream: " ++ e]) ∧
    ((Minimal.fallback hostnameM state request).response = some ⟨500, [], ""⟩ ∧
     (Minimal.fallback hostnameM state request).upstreamCalls.length = 1 ∧
     (Minimal.fallback hostnameM state request).errorLogs =
       ["Internal error when talking to upstream: " ++ e]) := by
  unfold Backend.fallback Minimal.fallback
  rw [hpq]
  simp [hB, hM, hclient]

/-- Witness for C2 with a concrete connection-refused error. -/
theorem fallback_upstream_error_synthesizes_500_witness :
    ((Backend.fallback "example.org"
        ⟨fun _ => Except.error "connection refused", ⟨"127.0.0.1", 9000⟩⟩
        ⟨"GET", ⟨none, none, some "/anything"⟩, [], ""⟩).response =
      some ⟨500, [], ""⟩ ∧
     (Backend.fallback "example.org"
        ⟨fun _ => Except.error "connection refused", ⟨"127.0.0.1", 9000⟩⟩
        ⟨"GET", ⟨none, none, some "/anything"⟩, [], ""⟩).upstreamCalls.length = 1 ∧
     (Backend.fallback "example.org"
        ⟨fun _ => Except.error "connection refused", ⟨"127.0.0.1", 9000⟩⟩
        ⟨"GET", ⟨none, none, some "/anything"⟩, [], ""⟩).errorLogs =
       ["Internal error when talking to upstream: " ++ "connection refused"]) ∧
    ((Minimal.fallback "example.org"
        ⟨fun _ => Except.error "connection refused", ⟨"127.0.0.1", 9000⟩⟩
        ⟨"GET", ⟨none, none, some "/anything"⟩, [], ""⟩).response =
      some ⟨500, [], ""⟩ ∧
     (Minimal.fallback "example.org"
        ⟨fun _ => Except.error "connection refused", ⟨"127.0.0.1", 9000⟩⟩
        ⟨"GET", ⟨none, none, some "/anything"⟩, [], ""⟩).upstreamCalls.length = 1 ∧
     (Minimal.fallback "example.org"
        ⟨fun _ => Except.error "connection refused", ⟨"127.0.0.1", 9000⟩⟩
        ⟨"GET", ⟨none, none, some "/anything"⟩, [], ""⟩).errorLogs =
       ["Internal error when talking to upstream: " ++ "connection refused"]) :=
  fallback_upstream_error_synthesizes_500 "example.org" "example.org"
    ⟨fun _ => Except.error "connection refused", ⟨"127.0.0.1", 9000⟩⟩
    ⟨"GET", ⟨none, none, some "/anything"⟩, [], ""⟩ "/anything" "connection refused"
    rfl (by decide) (by decide) (fun _ => rfl)

/-- C10: in the richer variant, a completed request whose response status is
4xx or 5xx increments only the error counter — exactly one increment of
`error_responses` carrying that status and the request's method — while the
general `responses` counter and the `redirect_responses` counter are left
unchanged. -/
theorem backend_error_status_only_error_counter
    (request : Request) (response : Response)
    (herr : (isClientError response.status || isServerError response.status) = true) :
    counterTotal "error_responses" (Backend.observe request response).1 = 1 ∧
    counterTotal "responses" (Backend.observe request response).1 = 0 ∧
    counterTotal "redirect_responses" (Backend.observe request response).1 = 0 ∧
    counterTotalAt "error_responses" response.status request.method
      (Backend.observe request response).1 = 1 := by
  unfold Backend.observe
  simp [herr, counterTotal, counterTotalAt, List.countP_cons, beq_iff_eq]

/-- Witness for C10 at a concrete 404 response. -/
theorem backend_error_status_only_error_counter_witness :
    (isClientError 404 || isServerError 404) = true ∧
    counterTotal "error_responses"
      (Backend.observe ⟨"GET", ⟨none, none, some "/x"⟩, [], ""⟩ ⟨404, [], ""⟩).1 = 1 ∧
    counterTotal "responses"
      (Backend.observe ⟨"GET", ⟨none, none, some "/x"⟩, [], ""⟩ ⟨404, [], ""⟩).1 = 0 := by
  have h := backend_error_status_only_error_counter
    ⟨"GET", ⟨none, none, some "/x"⟩, [], ""⟩ ⟨404, [], ""⟩ (by decide)
  exact ⟨by decide, h.1, h.2.1⟩

/-- C1 counterexample: with the upstream reachable and replying 404, the
richer variant returns status 404 to the client but records zero increments
of the general `responses` counter (the increment goes to `error_responses`
instead), refuting "exactly one increment of the general responses counter". -/
theorem backend_upstream_404_no_general_counter_cex :
    (Backend.handle "example.org"
        ⟨fun _ => Except.ok ⟨404, [], "not found"⟩, ⟨"127.0.0.1", 9000⟩⟩
        ⟨"GET", ⟨none, none, some "/missing"⟩, [], ""⟩).map
      (fun o => (o.1.status, counterTotal "responses" o.2.1)) = some (404, 0) := by
  decide

/-- C1 amended: when the upstream is reachable and replies with status S,
the client receives that response verbatim (status S); if S is not a
4xx/5xx status, exactly one increment of the general `responses` counter
labeled with S and the request's method is recorded, and the error counter
is untouched; if S is 4xx/5xx, the general counter is not incremented and
exactly one `error_responses` increment with those labels is recorded
instead. -/
theorem backend_reachable_status_and_counters
    (hostname : String) (state : ProxyState) (request : Request)
    (pq : String) (r : Response)
    (hpq : request.uri.pathAndQuery = some pq)
    (hauth : isValidAuthority (hostname ++ ":" ++ toString state.remote.port) = true)
    (hclient : ∀ q, state.client q = Except.ok r) :
    ∃ ms ls, Backend.handle hostname state request = some (r, ms, ls) ∧
      ((isClientError r.status || isServerError r.status) = false →
        counterTotalAt "responses" r.status request.method ms = 1 ∧
        counterTotal "responses" ms = 1 ∧
        counterTotal "error_responses" ms = 0) ∧
      ((isClientError r.status || isServerError r.status) = true →
        counterTotal "responses" ms = 0 ∧
        counterTotalAt "error_responses" r.status request.method ms = 1) := by
  unfold Backend.handle Backend.fallback
  rw [hpq]
  simp only [hauth, if_true, hclient]
  refine ⟨(Backend.observe request r).1,
    (Backend.observe request r).2, by simp, ?_, ?_⟩ <;>
    intro he <;> unfold Backend.observe <;>
    [skip; simp [he, counterTotal, counterTotalAt, beq_iff_eq]]
  by_cases hr : isRedirection r.status = true <;>
    simp [he, hr, counterTotal, counterTotalAt, beq_iff_eq]

/-- Witness for the amended C1: the concrete 200-OK scenario records exactly
one `responses` increment labeled (200, GET). -/
theorem backend_reachable_status_and_counters_witness :
    ∃ ms ls,
      Backend.handle "127.0.0.1"
          ⟨fun _ => Except.ok ⟨200, [], "ok"⟩, ⟨"127.0.0.1", 9000⟩⟩
          ⟨"GET", ⟨none, none, some "/health"⟩, [], ""⟩ =
        some (⟨200, [], "ok"⟩, ms, ls) ∧
      ((isClientError 200 || isServerError 200) = false →
        counterTotalAt "responses" 200 "GET" ms = 1 ∧
        counterTotal "responses" ms = 1 ∧
        counterTotal "error_responses" ms = 0) ∧
      ((isClientError 200 || isServerError 200) = true →
        counterTotal "responses" ms = 0 ∧
        counterTotalAt "error_responses" 200 "GET" ms = 1) :=
  backend_reachable_status_and_counters "127.0.0.1"
    ⟨fun _ => Except.ok ⟨200, [], "ok"⟩, ⟨"127.0.0.1", 9000⟩⟩
    ⟨"GET", ⟨none, none, some "/health"⟩, [], ""⟩ "/health" ⟨200, [], "ok"⟩
    rfl (by decide) (fun _ => rfl)

/-- C7 counterexample: a completed request whose response is a 301 redirect
makes the richer middleware emit two counter increments (`redirect_responses`
and `responses`) and two log lines (warn and info), refuting "exactly one
metric counter increment and exactly one structured log line". -/
theorem backend_redirect_double_emission_cex :
    allCounterTotal
      (Backend.observe ⟨"GET", ⟨none, none, some "/old"⟩, [], ""⟩ ⟨301, [], ""⟩).1
      = 2 ∧
    (Backend.observe ⟨"GET", ⟨none, none, some "/old"⟩, [], ""⟩ ⟨301, [], ""⟩).2.length
      = 2 := by
  decide

/-- C7 amended: per completed request the middleware emits exactly one
histogram observation in both variants; the richer variant emits exactly one
counter increment and exactly one log line unless the response is a 3xx,
which gets two counter increments and two log lines; the minimal variant
emits no counter increments and exactly one log line; and on an upstream
transport failure the forwarding handler itself logs one additional error
line before the middleware's. -/
theorem per_request_emission_counts
    (request : Request) (response : Response) :
    (histogramTotal (Backend.observe request response).1 = 1 ∧
     allCounterTotal (Backend.observe request response).1 =
       (if isRedirection response.status then 2 else 1) ∧
     (Backend.observe request response).2.length =
       (if isRedirection response.status then 2 else 1)) ∧
    (histogramTotal (Minimal.observe request response).1 = 1 ∧
     allCounterTotal (Minimal.observe request response).1 = 0 ∧
     (Minimal.observe request response).2.length = 1) ∧
    (∀ (hostname : String) (state : ProxyState) (req2 : Request) (pq e : String),
       req2.uri.pathAndQuery = some pq →
       isValidAuthority (hostname ++ ":" ++ toString state.remote.port) = true →
       (∀ q, state.client q = Except.error e) →
       (Backend.fallback hostname state req2).errorLogs.length = 1) := by
  refine ⟨?_, ?_, ?_⟩
  · unfold Backend.observe
    rcases he : isClientError response.status || isServerError response.status with _ | _
    · rcases hr : isRedirection response.status with _ | _ <;>
        simp [he, hr, histogramTotal, allCounterTotal]
    · have hr : isRedirection response.status = false := by
        rcases Bool.or_eq_true_iff.mp he with h | h <;>
          simp only [isClientError, isServerError, decide_eq_true_eq] at h <;>
          simp [isRedirection] <;> omega
      simp [he, hr, histogramTotal, allCounterTotal]
  · unfold Minimal.observe
    rcases he : isClientError response.status || isServerError response.status with _ | _ <;>
      simp [he, histogramTotal, allCounterTotal]
  · intro hostname state req2 pq e hpq hauth hclient
    unfold Backend.fallback
    rw [hpq]
    simp [hauth, hclient]

/-- Witness for the amended C7: concrete counts for a 200 response and for
an upstream failure. -/
theorem per_request_emission_counts_witness :
    histogramTotal
      (Backend.observe ⟨"GET", ⟨none, none, some "/health"⟩, [], ""⟩ ⟨200, [], "ok"⟩).1
      = 1 ∧
    (Backend.fallback "example.org"
        ⟨fun _ => Except.error "connection reset", ⟨"127.0.0.1", 9000⟩⟩
        ⟨"GET", ⟨none, none, some "/health"⟩, [], ""⟩).errorLogs.length = 1 := by
  have h := per_request_emission_counts
    ⟨"GET", ⟨none, none, some "/health"⟩, [], ""⟩ ⟨200, [], "ok"⟩
  exact ⟨h.1.1, h.2.2 "example.org"
    ⟨fun _ => Except.error "connection reset", ⟨"127.0.0.1", 9000⟩⟩
    ⟨"GET", ⟨none, none, some "/health"⟩, [], ""⟩ "/health" "connection reset"
    rfl (by decide) (fun _ => rfl)⟩

/-- Helper: the levels of the richer middleware's log lines are `error`
exactly when the response status is classified 4xx/5xx by the code. -/
theorem backend_observe_log_levels (request : Request) (response : Response) :
    ∀ l ∈ (Backend.observe request response).2,
      (l.level = Level.error ↔
        (isClientError response.status || isServerError response.status) = true) := by
  unfold Backend.observe
  rcases he : isClientError response.status || isServerError response.status with _ | _
  · rcases hr : isRedirection response.status with _ | _
    · simp [he, hr]
    · simp [he, hr]
  · simp [he]

/-- Helper: any successful run of the richer variant returns the middleware's
metric events, and its log lines are the middleware's, possibly preceded by
the handler's own upstream-failure error line, in which case the response is
the synthesized 500. -/
theorem backend_handle_shape
    (hostname : String) (state : ProxyState) (request : Request)
    (resp : Response) (ms : List MetricEvent) (ls : List LogLine)
    (hrun : Backend.handle hostname state request = some (resp, ms, ls)) :
    ms = (Backend.observe request resp).1 ∧
    (ls = (Backend.observe request resp).2 ∨
     (resp = ⟨500, [], ""⟩ ∧ ∃ e, ls =
       ⟨Level.error, "Internal error when talking to upstream", none, none, none, some e⟩
         :: (Backend.observe request resp).2)) := by
  unfold Backend.handle Backend.fallback at hrun
  rcases hq : request.uri.pathAndQuery with _ | pq
  · rw [hq] at hrun
    exact absurd hrun (by simp)
  · rw [hq] at hrun
    by_cases hv : isValidAuthority (hostname ++ ":" ++ toString state.remote.port) = true
    · simp only [hv, if_true] at hrun
      rcases hc : state.client
          { request with uri := ⟨some "http",
              some (hostname ++ ":" ++ toString state.remote.port), some pq⟩ }
        with e | r
      · rw [hc] at hrun
        simp only [List.map_cons, List.map_nil, Option.some_inj,
          Prod.mk.injEq] at hrun
        obtain ⟨h1, h2, h3⟩ := hrun
        subst h1 h2 h3
        exact ⟨rfl, Or.inr ⟨rfl, "Internal error when talking to upstream: " ++ e, rfl⟩⟩
      · rw [hc] at hrun
        simp only [List.map_nil, List.nil_append, Option.some_inj,
          Prod.mk.injEq] at hrun
        obtain ⟨h1, h2, h3⟩ := hrun
        subst h1 h2 h3
        exact ⟨rfl, Or.inl rfl⟩
    · simp [hv] at hrun

/-- C8 counterexample: hyper's `StatusCode` admits statuses up to 999; with
the upstream replying status 600 the richer variant records a single log
line at level `info` while the associated response status 600 is ≥ 400,
refuting the claimed "error iff status ≥ 400". -/
theorem backend_log_level_600_cex :
    (Backend.handle "example.org"
        ⟨fun _ => Except.ok ⟨600, [], ""⟩, ⟨"127.0.0.1", 9000⟩⟩
        ⟨"GET", ⟨none, none, some "/x"⟩, [], ""⟩).map
      (fun o => (o.1.status, o.2.2.map LogLine.level)) = some (600, [Level.info]) ∧
    400 ≤ 600 := by
  exact ⟨by decide, by decide⟩

/-- Helper: the levels of the minimal middleware's log lines are `error`
exactly when the response status is classified 4xx/5xx by the code. -/
theorem minimal_observe_log_levels (request : Request) (response : Response) :
    ∀ l ∈ (Minimal.observe request response).2,
      (l.level = Level.error ↔
        (isClientError response.status || isServerError response.status) = true) := by
  unfold Minimal.observe
  rcases he : isClientError response.status || isServerError response.status with _ | _ <;>
    simp [he]

/-- Helper: any successful run of the minimal variant returns the
middleware's metric events, and its log lines are the middleware's, possibly
preceded by the handler's own upstream-failure error line, in which case the
response is the synthesized 500. -/
theorem minimal_handle_shape
    (hostname : String) (state : ProxyState) (request : Request)
    (resp : Response) (ms : List MetricEvent) (ls : List LogLine)
    (hrun : Minimal.handle hostname state request = some (resp, ms, ls)) :
    ms = (Minimal.observe request resp).1 ∧
    (ls = (Minimal.observe request resp).2 ∨
     (resp = ⟨500, [], ""⟩ ∧ ∃ e, ls =
       ⟨Level.error, "Internal error when talking to upstream", none, none, none, some e⟩
         :: (Minimal.observe request resp).2)) := by
  unfold Minimal.handle Minimal.fallback at hrun
  rcases hq : request.uri.pathAndQuery with _ | pq
  · rw [hq] at hrun
    exact absurd hrun (by simp)
  · rw [hq] at hrun
    by_cases hv : isValidAuthority hostname = true
    · simp only [hv, if_true] at hrun
      rcases hc : state.client
          { request with uri := ⟨some "http", some hostname, some pq⟩ }
        with e | r
      · rw [hc] at hrun
        simp only [List.map_cons, List.map_nil, Option.some_inj,
          Prod.mk.injEq] at hrun
        obtain ⟨h1, h2, h3⟩ := hrun
        subst h1 h2 h3
        exact ⟨rfl, Or.inr ⟨rfl, "Internal error when talking to upstream: " ++ e, rfl⟩⟩
      · rw [hc] at hrun
        simp only [List.map_nil, List.nil_append, Option.some_inj,
          Prod.mk.injEq] at hrun
        obtain ⟨h1, h2, h3⟩ := hrun
        subst h1 h2 h3
        exact ⟨rfl, Or.inl rfl⟩
    · simp [hv] at hrun

/-- C8 amended: in both variants, for every log line recorded during a
completed request (the middleware's lines and the handler's failure line
alike), the line's level is `error` if and only if the status of the
response the client receives lies in the 4xx/5xx classes, i.e. 400 ≤ status
≤ 599 (statuses of 600 and above are logged at `info`). -/
theorem log_level_error_iff_4xx5xx
    (hostname : String) (state : ProxyState) (request : Request)
    (resp : Response) (ms : List MetricEvent) (ls : List LogLine) :
    (Backend.handle hostname state request = some (resp, ms, ls) →
      ∀ l ∈ ls, (l.level = Level.error ↔
        (isClientError resp.status || isServerError resp.status) = true)) ∧
    (Minimal.handle hostname state request = some (resp, ms, ls) →
      ∀ l ∈ ls, (l.level = Level.error ↔
        (isClientError resp.status || isServerError resp.status) = true)) := by
  constructor
  · intro hrun
    obtain ⟨hms, hls | ⟨hresp, e, hls⟩⟩ :=
      backend_handle_shape hostname state request resp ms ls hrun
    · subst hls
      exact backend_observe_log_levels request resp
    · subst hls
      intro l hl
      rcases List.mem_cons.mp hl with h | h
      · subst h
        subst hresp
        exact ⟨fun _ => by decide, fun _ => rfl⟩
      · exact backend_observe_log_levels request resp l h
  · intro hrun
    obtain ⟨hms, hls | ⟨hresp, e, hls⟩⟩ :=
      minimal_handle_shape hostname state request resp ms ls hrun
    · subst hls
      exact minimal_observe_log_levels request resp
    · subst hls
      intro l hl
      rcases List.mem_cons.mp hl with h | h
      · subst h
        subst hresp
        exact ⟨fun _ => by decide, fun _ => rfl⟩
      · exact minimal_observe_log_levels request resp l h

/-- Witness for the amended C8: a concrete successful 200 run of the richer
variant and a concrete 503 run of the minimal variant, both with their log
lines checked against the iff. -/
theorem log_level_error_iff_4xx5xx_witness :
    ((⟨Level.info, "Serving response", some 200, some "/health", some "GET", none⟩
        : LogLine).level = Level.error ↔
      (isClientError 200 || isServerError 200) = true) ∧
    ((⟨Level.error, "Serving error", some 503, some "/health", some "GET", none⟩
        : LogLine).level = Level.error ↔
      (isClientError 503 || isServerError 503) = true) := by
  have hb := log_level_error_iff_4xx5xx "example.org"
    ⟨fun _ => Except.ok ⟨200, [], "ok"⟩, ⟨"127.0.0.1", 9000⟩⟩
    ⟨"GET", ⟨none, none, some "/health"⟩, [], ""⟩
    ⟨200, [], "ok"⟩
    [MetricEvent.counter "responses" 200 "GET",
     MetricEvent.histogram "response_processing_time_seconds" (some (200, "GET"))]
    [⟨Level.info, "Serving response", some 200, some "/health", some "GET", none⟩]
  have hm := log_level_error_iff_4xx5xx "example.org"
    ⟨fun _ => Except.ok ⟨503, [], ""⟩, ⟨"127.0.0.1", 9000⟩⟩
    ⟨"GET", ⟨none, none, some "/health"⟩, [], ""⟩
    ⟨503, [], ""⟩
    [MetricEvent.histogram "response_processing_time_seconds" none]
    [⟨Level.error, "Serving error", some 503, some "/health", some "GET", none⟩]
  exact ⟨hb.1 (by decide) _ (by simp), hm.2 (by decide) _ (by simp)⟩

/-- Helper: every completed request contributes exactly one increment to the
union of the `responses` and `error_responses` counters in the richer
variant (a 4xx/5xx goes to the error counter, everything else to the
general counter). -/
theorem backend_observe_responses_plus_errors (request : Request) (response : Response) :
    counterTotal "responses" (Backend.observe request response).1 +
      counterTotal "error_responses" (Backend.observe request response).1 = 1 := by
  unfold Backend.observe
  rcases he : isClientError response.status || isServerError response.status with _ | _
  · rcases hr : isRedirection response.status with _ | _ <;>
      simp [he, hr, counterTotal, beq_iff_eq]
  · simp [he, counterTotal, beq_iff_eq]

/-- C9 counterexample: after the two completed requests 404 then 301 (N = 2)
the richer variant's counters total 3 increments across all names and
labels, while the general `responses` counter alone totals 1 — neither
reading of "the sum of all response counters" equals N. -/
theorem backend_counter_sum_cex :
    allCounterTotal
      (Backend.runMetrics
        ([(⟨"GET", ⟨none, none, some "/a"⟩, [], ""⟩, ⟨404, [], ""⟩),
          (⟨"GET", ⟨none, none, some "/b"⟩, [], ""⟩, ⟨301, [], ""⟩)] :
          List (Request × Response))) = 3 ∧
    counterTotal "responses"
      (Backend.runMetrics
        ([(⟨"GET", ⟨none, none, some "/a"⟩, [], ""⟩, ⟨404, [], ""⟩),
          (⟨"GET", ⟨none, none, some "/b"⟩, [], ""⟩, ⟨301, [], ""⟩)] :
          List (Request × Response))) = 1 ∧
    ([(⟨"GET", ⟨none, none, some "/a"⟩, [], ""⟩, ⟨404, [], ""⟩),
      (⟨"GET", ⟨none, none, some "/b"⟩, [], ""⟩, ⟨301, [], ""⟩)] :
      List (Request × Response)).length = 2 ∧
    3 ≠ 2 ∧ 1 ≠ 2 := by
  decide

/-- C9 amended: in the richer variant, after any sequence of N completed
requests with any mix of outcomes, the sum of the general `responses`
counter and the `error_responses` counter across all status labels equals
exactly N; the `redirect_responses` counter must be excluded from the sum
(it double-counts 3xx responses), and the minimal variant emits no counters
at all. -/
theorem backend_counter_sum_invariant (pairs : List (Request × Response)) :
    (counterTotal "responses" (Backend.runMetrics pairs) +
      counterTotal "error_responses" (Backend.runMetrics pairs) = pairs.length) ∧
    ∀ (request : Request) (response : Response),
      allCounterTotal (Minimal.observe request response).1 = 0 := by
  constructor
  · induction pairs with
    | nil => rfl
    | cons p rest ih =>
      have h := backend_observe_responses_plus_errors p.1 p.2
      simp only [Backend.runMetrics, counterTotal, List.countP_append,
        List.length_cons] at h ih ⊢
      omega
  · intro request response
    unfold Minimal.observe
    rcases he : isClientError response.status || isServerError response.status with _ | _ <;>
      simp [he, allCounterTotal]
